import Mathlib

/-!
Verification of the `mofox-plugin-toolkit` static validation core
(`mpdt/validators/component_validator.py`, `metadata_validator.py`,
`auto_fix_validator.py`) against its natural-language specification.

The Python source is shallowly embedded: the fragments of the Python `ast`
and `libcst` node vocabulary that the validators inspect become Lean
inductives, and each validator routine becomes a Lean function mirroring
the source statement by statement.  Machine-independent data (strings,
lists, association lists for Python `dict`s) is modelled directly.
-/

namespace Mpdt

/-! ## Association lists (Python `dict` with insertion order and overwrite) -/

/-- Lookup in an association list; mirrors `d.get(k)` / `d[k]` on a Python
dict (keys are unique in every dict the validators build). -/
def lookupAssoc {α : Type} (m : List (String × α)) (k : String) : Option α :=
  (m.find? (fun p => p.1 == k)).map (fun p => p.2)

/-- `d[k] = v` on a Python dict: overwrite in place if the key exists,
else insert at the end (insertion order preserved). -/
def updateAssoc {α : Type} (m : List (String × α)) (k : String) (v : α) :
    List (String × α) :=
  if m.any (fun p => p.1 == k) then
    m.map (fun p => if p.1 == k then (k, v) else p)
  else
    m ++ [(k, v)]

/-- `k in d` on a Python dict. -/
def hasKey {α : Type} (m : List (String × α)) (k : String) : Bool :=
  m.any (fun p => p.1 == k)

/-! ## Python constants and expressions (the `ast` fragment the validators read) -/

/-- Literal constants (`ast.Constant`; `ast.Str` is its legacy alias).
JSON-typed and Python-typed literals share this vocabulary.  Floats never
occur in the inspected fragments and are not modelled. -/
inductive PyConst where
  | str (s : String)
  | int (n : Int)
  | bool (b : Bool)
  | none
  deriving DecidableEq, Repr

/-- Python truthiness of a constant (`if node.value:`). -/
def PyConst.truthy : PyConst → Bool
  | .str s => s ≠ ""
  | .int n => n ≠ 0
  | .bool b => b
  | .none => false

/-- `str(node.value)` for a constant. -/
def PyConst.toPyStr : PyConst → String
  | .str s => s
  | .int n => toString n
  | .bool true => "True"
  | .bool false => "False"
  | .none => "None"

/-- The expression fragment of the Python `ast` that the validators
pattern-match on: names, constants, list/tuple/dict displays, calls,
attribute access, subscripts and `X | Y` unions (`ast.BinOp` with
`ast.BitOr`).  Dict contents are never inspected by any embedded routine,
so `dictE` carries no payload. -/
inductive PyExpr where
  | name (id : String)
  | const (c : PyConst)
  | listE (elts : List PyExpr)
  | tupleE (elts : List PyExpr)
  | dictE
  | call (f : PyExpr) (args : List PyExpr)
  | attr (v : PyExpr) (a : String)
  | subscript (v : PyExpr) (sl : PyExpr)
  | binOr (l : PyExpr) (r : PyExpr)

/-- The statement fragment of the Python `ast` that the validators read.
`funcDef` covers both `ast.FunctionDef` and `ast.AsyncFunctionDef`
(distinguished by `isAsync`); `argNames` are the positional argument
names including `self`, `vararg`/`kwarg` record `*args`/`**kwargs`. -/
inductive PyStmt where
  | assign (targets : List PyExpr) (value : PyExpr)
  | annAssign (target : PyExpr) (value : Option PyExpr)
  | exprStmt (value : PyExpr)
  | ret (value : Option PyExpr)
  | passStmt
  | raiseStmt (exc : Option PyExpr)
  | funcDef (name : String) (argNames : List String) (vararg : Bool)
      (kwarg : Bool) (returns : Option PyExpr) (body : List PyStmt)
      (isAsync : Bool)
  | other

/-- An `ast.ClassDef`: name, base-class expressions, body statements. -/
structure PyClassDef where
  name : String
  bases : List PyExpr
  body : List PyStmt

/-! ## Validation issues

Modelled from the spec: `base.py` (the `BaseValidator` / `ValidationResult`
/ `ValidationIssue` module) is not part of the provided sources; spec §3
describes `ValidationIssue` as `{level: Error|Warning|Info, message,
file_path|absent, line_number|absent, suggestion|absent}` and
`ValidationResult` as an append-only ordered sequence of issues.  Each
validator routine below therefore returns the ordered list of issues it
appends. -/

inductive Level where
  | error
  | warning
  | info
  deriving DecidableEq, Repr

/-- One validation issue, in the field order of spec §3. -/
structure Issue where
  level : Level
  message : String
  filePath : Option String := Option.none
  lineNumber : Option Nat := Option.none
  suggestion : Option String := Option.none
  deriving DecidableEq, Repr

/-! ## String helpers mirroring the Python string operations used -/

/-- Does the character list start with the given pattern? -/
def startsWithChars : List Char → List Char → Bool
  | _, [] => true
  | [], _ :: _ => false
  | c :: cs, p :: ps => c == p && startsWithChars cs ps

/-- Does the pattern occur as a contiguous run of the character list? -/
def strContainsList : List Char → List Char → Bool
  | [], pat => pat.isEmpty
  | c :: cs, pat => startsWithChars (c :: cs) pat || strContainsList cs pat

/-- Python substring test `pat in s`. -/
def strContains (s pat : String) : Bool :=
  strContainsList s.toList pat.toList

/-- Left-to-right, non-overlapping replacement of a non-empty pattern,
as Python `str.replace` performs it.  The fuel argument (the input
length) only makes the recursion structural; it never runs out. -/
def replaceAux (pat rep : List Char) : Nat → List Char → List Char
  | 0, rest => rest
  | _ + 1, [] => []
  | fuel + 1, c :: cs =>
      if startsWithChars (c :: cs) pat then
        rep ++ replaceAux pat rep fuel (cs.drop (pat.length - 1))
      else
        c :: replaceAux pat rep fuel cs

/-- Python `s.replace(pat, rep)` for a non-empty pattern (every pattern
the validator passes is non-empty). -/
def pyReplace (s pat rep : String) : String :=
  if pat.isEmpty then s
  else String.mk (replaceAux pat.toList rep.toList s.toList.length s.toList)

/-- Splitting at each non-overlapping occurrence of a non-empty
separator, as Python `str.split(sep)` performs it. -/
def splitAux (sep : List Char) : Nat → List Char → List Char → List String
  | 0, acc, rest => [String.mk (acc.reverse ++ rest)]
  | _ + 1, acc, [] => [String.mk acc.reverse]
  | fuel + 1, acc, c :: cs =>
      if startsWithChars (c :: cs) sep then
        String.mk acc.reverse :: splitAux sep fuel [] (cs.drop (sep.length - 1))
      else
        splitAux sep fuel (c :: acc) cs

/-- Python `s.split(sep)` for a non-empty separator. -/
def pySplit (s sep : String) : List String :=
  if sep.isEmpty then [s]
  else splitAux sep.toList s.toList.length [] s.toList

/-- `s.replace(" ", "")`. -/
def stripSpaces (s : String) : String :=
  pyReplace s " " ""

/-- A regex `\w` character (ASCII range; the annotation strings compared
by the validator are ASCII). -/
def isWordChar (c : Char) : Bool :=
  c.isAlphanum || c == '_'

/-- Maximal runs of word characters, as `re.findall(r"\w+", s)` returns
them, in order. -/
def wordTokensAux : List Char → List Char → List String
  | [], acc => if acc.isEmpty then [] else [String.mk acc.reverse]
  | c :: cs, acc =>
    if isWordChar c then
      wordTokensAux cs (c :: acc)
    else if acc.isEmpty then
      wordTokensAux cs []
    else
      String.mk acc.reverse :: wordTokensAux cs []

/-- `re.findall(r"\w+", s)`. -/
def wordTokens (s : String) : List String :=
  wordTokensAux s.toList []

/-- Equality of the two `set(...)` values built from token lists:
two Python sets are equal iff they have the same members. -/
def strSetEq (a b : List String) : Bool :=
  a.all (fun t => b.contains t) && b.all (fun t => a.contains t)

/-! ## `ComponentValidator._compare_type_annotations`
(`component_validator.py` lines 976-1026)

Transcribed branch for branch.  Note that line 1022 of the source reads
`expected_types = set(re.findall(r"\w+", actual))` — both token sets are
computed from `actual`; the transcription below reproduces that line
as written. -/

def compareTypeAnnotations (actual expected : String) : Bool :=
  -- 标准化类型字符串（移除空格）
  let actual0 := stripSpaces actual
  let expected0 := stripSpaces expected
  -- 直接比较
  if actual0 == expected0 then true
  else
    -- 处理可选类型的不同写法: Optional[str] vs str | None
    let hasOpt := strContains actual0 "Optional" || strContains expected0 "Optional"
    let actual1 :=
      if hasOpt then pyReplace (pyReplace actual0 "Optional[" "") "]" "|None"
      else actual0
    let expected1 :=
      if hasOpt then pyReplace (pyReplace expected0 "Optional[" "") "]" "|None"
      else expected0
    if hasOpt && actual1 == expected1 then true
    else
      -- 宽松匹配：泛型基类型匹配 (tuple matches tuple[bool, str])
      let actualBase := (pySplit actual1 "[").headD ""
      let expectedBase := (pySplit expected1 "[").headD ""
      if actualBase == expectedBase then true
      else
        -- 处理 Union 和 | 的不同写法
        if strContains actual1 "Union" || strContains expected1 "Union" ||
            strContains actual1 "|" || strContains expected1 "|" then
          let actualTypes := wordTokens actual1
          let expectedTypes := wordTokens actual1
          if strSetEq actualTypes expectedTypes then true else false
        else false

/-! ## Rule tables (`component_validator.py` lines 52-151) -/

/-- `COMPONENT_REQUIRED_FIELDS`: required metadata attributes per base-class
name. -/
def COMPONENT_REQUIRED_FIELDS : List (String × List String) :=
  [("Action", ["action_name", "action_description"]),
   ("BaseAction", ["action_name", "action_description"]),
   ("Command", ["command_name", "command_description"]),
   ("BaseCommand", ["command_name", "command_description"]),
   ("Tool", ["tool_name", "tool_description"]),
   ("BaseTool", ["tool_name", "tool_description"]),
   ("EventHandler", ["handler_name", "handler_description"]),
   ("BaseEventHandler", ["handler_name", "handler_description"]),
   ("Adapter", ["adapter_name", "adapter_description"]),
   ("BaseAdapter", ["adapter_name", "adapter_description"]),
   ("Chatter", ["chatter_name", "chatter_description"]),
   ("BaseChatter", ["chatter_name", "chatter_description"]),
   ("Collection", ["collection_name", "collection_description"]),
   ("BaseCollection", ["collection_name", "collection_description"]),
   ("Service", ["service_name", "service_description"]),
   ("BaseService", ["service_name", "service_description"]),
   ("Router", ["router_name", "router_description"]),
   ("BaseRouterComponent", ["router_name", "router_description"])]

/-- `COMPONENT_REQUIRED_METHODS`: required methods per base-class name. -/
def COMPONENT_REQUIRED_METHODS : List (String × List String) :=
  [("BaseAction", ["execute"]),
   ("BaseCommand", ["execute"]),
   ("BaseTool", ["execute"]),
   ("BaseEventHandler", ["execute"]),
   ("BaseAdapter", ["from_platform_message", "get_bot_info"]),
   ("BaseChatter", ["execute"]),
   ("BaseCollection", ["get_contents"]),
   ("BaseRouterComponent", ["register_endpoints"])]

/-- The `params` entry of a signature spec: either the sentinel string
`"variable"` (here `varArgs`) or an ordered list of `(name, kind)` pairs. -/
inductive ParamSpec where
  | varArgs
  | plist (params : List (String × String))
  deriving DecidableEq, Repr

/-- One row of `COMPONENT_METHOD_SIGNATURES`. -/
structure MethodSig where
  params : ParamSpec
  returnType : String
  isAsync : Bool
  deriving DecidableEq, Repr

/-- `COMPONENT_METHOD_SIGNATURES`: per base class, per method, the expected
signature. -/
def COMPONENT_METHOD_SIGNATURES : List (String × List (String × MethodSig)) :=
  [("BaseAction", [("execute", ⟨.varArgs, "tuple[bool, str]", true⟩)]),
   ("BaseCommand",
     [("execute", ⟨.plist [("message_text", "str")], "tuple[bool, str]", true⟩)]),
   ("BaseTool", [("execute", ⟨.varArgs, "tuple[bool, str | dict]", true⟩)]),
   ("BaseEventHandler",
     [("execute",
       ⟨.plist [("kwargs", "dict | None")], "tuple[bool, bool, str | None]", true⟩)]),
   ("BaseAdapter",
     [("from_platform_message", ⟨.plist [("raw", "Any")], "MessageEnvelope", true⟩),
      ("get_bot_info", ⟨.plist [], "dict[str, Any]", true⟩)]),
   ("BaseChatter", [("execute", ⟨.plist [], "AsyncGenerator", true⟩)]),
   ("BaseCollection", [("get_contents", ⟨.plist [], "list[str]", true⟩)]),
   ("BaseRouterComponent", [("register_endpoints", ⟨.plist [], "None", false⟩)])]

/-! ## Component discovery
(`ComponentValidator._extract_components_from_get_components`,
`component_validator.py` lines 350-438) -/

/-- A discovered component: the `{"class_name": ..., "import_from": ...}`
dict built at lines 428-435. -/
structure ComponentInfo where
  className : String
  importFrom : String
  deriving DecidableEq, Repr

/-- The two accumulators of the first loop: `local_vars` (list-valued
assignments) and `local_appends` (classes appended per variable). -/
structure GcLocals where
  localVars : List (String × List PyExpr)
  localAppends : List (String × List String)

/-- One target of an assignment statement, lines 381-386. -/
def gcCollectAssign (st : GcLocals) (value : PyExpr) (target : PyExpr) :
    GcLocals :=
  match target, value with
  | .name var, .listE elts =>
      { localVars := updateAssoc st.localVars var elts
        localAppends :=
          if hasKey st.localAppends var then st.localAppends
          else updateAssoc st.localAppends var [] }
  | _, _ => st

/-- One statement of the collection loop, lines 378-398. -/
def gcCollectStep (st : GcLocals) (stmt : PyStmt) : GcLocals :=
  match stmt with
  | .assign targets value => targets.foldl (fun s t => gcCollectAssign s value t) st
  | .exprStmt (.call (.attr (.name var) a) args) =>
      if a == "append" then
        match args with
        | .name cls :: _ =>
            let st1 :=
              if hasKey st.localAppends var then st
              else { st with localAppends := updateAssoc st.localAppends var [] }
            { st1 with
                localAppends :=
                  updateAssoc st1.localAppends var
                    (((lookupAssoc st1.localAppends var).getD []) ++ [cls]) }
        | _ => st
      else st
  | _ => st

/-- `isinstance(element, ast.Name)` projection used at lines 408-421. -/
def gcNameOf : PyExpr → Option String
  | .name id => some id
  | _ => Option.none

/-- The return-statement loop, lines 402-436: the first `return` with a
value decides the component-name list; a bare `return` is skipped. -/
def gcReturnScan (st : GcLocals) : List PyStmt → List String
  | [] => []
  | .ret (some v) :: _ =>
      match v with
      | .listE elts => elts.filterMap gcNameOf
      | .name var =>
          (match lookupAssoc st.localVars var with
           | some elts => elts.filterMap gcNameOf
           | Option.none => []) ++
          ((lookupAssoc st.localAppends var).getD [])
      | _ => []
  | _ :: rest => gcReturnScan st rest

/-- `_extract_components_from_get_components(func_node, imports)`:
`body` is `func_node.body`, `imports` the `{class name: import path}` map.
The function inspects statements only; it never appends a validation
issue. -/
def extractComponentsFromGetComponents (body : List PyStmt)
    (imports : List (String × String)) : List ComponentInfo :=
  let st := body.foldl gcCollectStep ⟨[], []⟩
  (gcReturnScan st body).map
    (fun cn => ⟨cn, (lookupAssoc imports cn).getD ""⟩)

/-! ## Class-level extraction helpers (`component_validator.py` lines 628-728) -/

/-- `_get_base_class(class_node)`, lines 645-669: the literal name of the
first declared base. -/
def getBaseClass (c : PyClassDef) : String :=
  match c.bases with
  | [] => ""
  | b :: _ =>
      match b with
      | .name id => id
      | .attr _ a => a
      | _ => ""

/-- `_extract_value(node)`, lines 705-728. -/
def extractValue : PyExpr → Option String
  | .const c => if c.truthy then some c.toPyStr else Option.none
  | .listE _ => some "[...]"
  | .dictE => some "\x7b...\x7d"
  | _ => Option.none

/-- `_extract_class_attributes(class_node)`, lines 671-703. -/
def extractClassAttributes (body : List PyStmt) : List (String × Option String) :=
  body.foldl
    (fun attrs stmt =>
      match stmt with
      | .annAssign (.name id) value =>
          updateAssoc attrs id (value.bind extractValue)
      | .assign targets value =>
          targets.foldl
            (fun a t =>
              match t with
              | .name id => updateAssoc a id (extractValue value)
              | _ => a)
            attrs
      | _ => attrs)
    []

mutual

/-- `_extract_return_annotation(node)`, lines 936-974. -/
def extractReturnAnnotation : PyExpr → String
  | .name id => id
  | .const c => c.toPyStr
  | .subscript v (.tupleE elts) =>
      extractReturnAnnotation v ++ "[" ++
        String.intercalate ", " (extractAnnList elts) ++ "]"
  | .subscript v sl =>
      extractReturnAnnotation v ++ "[" ++ extractReturnAnnotation sl ++ "]"
  | .binOr l r => extractReturnAnnotation l ++ " | " ++ extractReturnAnnotation r
  | .attr _ a => a
  | _ => ""

def extractAnnList : List PyExpr → List String
  | [] => []
  | e :: es => extractReturnAnnotation e :: extractAnnList es

end

/-! ## Method records and method checks
(`component_validator.py` lines 734-930) -/

/-- The data of a `FunctionDef` / `AsyncFunctionDef` node that the method
checks read. -/
structure PyMethod where
  name : String
  argNames : List String
  vararg : Bool
  kwarg : Bool
  returns : Option PyExpr
  body : List PyStmt

/-- Whether the node was an `AsyncFunctionDef`; kept outside the record in
the source (`isinstance(method_node, ast.AsyncFunctionDef)`), carried here
as a field. -/
structure PyMethodNode extends PyMethod where
  isAsync : Bool

/-- The `defined_methods` dict of lines 751-754 (later definitions
overwrite earlier ones). -/
def definedMethods (body : List PyStmt) : List (String × PyMethodNode) :=
  body.foldl
    (fun m stmt =>
      match stmt with
      | .funcDef n args va kw ret b ia =>
          updateAssoc m n ⟨⟨n, args, va, kw, ret, b⟩, ia⟩
      | _ => m)
    []

/-- The find-first-method-by-name loop of `_check_method_implementation`,
lines 798-804. -/
def findMethodNode (body : List PyStmt) (methodName : String) :
    Option PyMethodNode :=
  match body with
  | [] => Option.none
  | .funcDef n args va kw ret b ia :: rest =>
      if n == methodName then some ⟨⟨n, args, va, kw, ret, b⟩, ia⟩
      else findMethodNode rest methodName
  | _ :: rest => findMethodNode rest methodName

/-- A statement the stub check of lines 818-836 skips: a docstring or
other constant expression, `pass`, or `raise NotImplementedError(...)`. -/
def isStubStmt : PyStmt → Bool
  | .exprStmt (.const _) => true
  | .passStmt => true
  | .raiseStmt (some (.call (.name f) _)) => f == "NotImplementedError"
  | _ => false

/-- `_check_method_implementation(class_node, method_name, class_name,
component_file)`, lines 779-843.  `fp` is the component file path the
issues carry. -/
def checkMethodImplementation (fp : String) (classBody : List PyStmt)
    (methodName className : String) : List Issue :=
  match findMethodNode classBody methodName with
  | Option.none => []
  | some m =>
      if m.body.isEmpty then
        [{ level := .warning
           message := "组件 " ++ className ++ " 的方法 " ++ methodName ++ " 为空"
           filePath := some fp }]
      else if m.body.all isStubStmt then
        [{ level := .warning
           message := "组件 " ++ className ++ " 的方法 " ++ methodName ++
             " 只包含 pass 或 raise NotImplementedError，可能未实现"
           filePath := some fp
           suggestion := some ("请实现方法 " ++ methodName ++ " 的具体逻辑") }]
      else []

/-- `_check_method_signature(method_node, class_name, method_name,
signature_spec, component_file)`, lines 845-930. -/
def checkMethodSignature (fp : String) (m : PyMethodNode)
    (className methodName : String) (spec : MethodSig) : List Issue :=
  let isAsyncRequired := spec.isAsync
  let asyncIssues :=
    if isAsyncRequired && !m.isAsync then
      [{ level := .error
         message := "组件 " ++ className ++ " 的方法 " ++ methodName ++
           " 应该是异步方法（使用 async def）"
         filePath := some fp
         suggestion := some ("将 \x27def " ++ methodName ++ "\x27 改为 \x27async def " ++
           methodName ++ "\x27 | 可运行 \x27mpdt check --fix\x27 自动修复") }]
    else if !isAsyncRequired && m.isAsync then
      [{ level := .warning
         message := "组件 " ++ className ++ " 的方法 " ++ methodName ++
           " 不应该是异步方法"
         filePath := some fp
         suggestion := some ("将 \x27async def " ++ methodName ++ "\x27 改为 \x27def " ++
           methodName ++ "\x27 | 可运行 \x27mpdt check --fix\x27 自动修复") }]
    else []
  let paramIssues :=
    match spec.params with
    | .varArgs => []
    | .plist ps =>
        let actualArgs := m.argNames.drop 1
        let minParams := (ps.filter (fun p => p.2 != "optional")).length
        let maxParams := ps.length
        if actualArgs.length < minParams then
          let paramNames := (ps.filter (fun p => p.2 != "optional")).map (fun p => p.1)
          [{ level := .error
             message := "组件 " ++ className ++ " 的方法 " ++ methodName ++
               " 缺少必需参数，应包含: " ++ String.intercalate ", " paramNames
             filePath := some fp
             suggestion := some ("方法签名应为: " ++
               (if isAsyncRequired then "async " else "") ++ "def " ++ methodName ++
               "(self, " ++ String.intercalate ", " paramNames ++
               ") | 可运行 \x27mpdt check --fix\x27 自动修复") }]
        else if decide (actualArgs.length > maxParams) && !m.vararg && !m.kwarg then
          let expectedParams := ps.map (fun p => p.1)
          [{ level := .warning
             message := "组件 " ++ className ++ " 的方法 " ++ methodName ++
               " 参数过多，预期: " ++
               (if expectedParams.isEmpty then "无参数"
                else String.intercalate ", " expectedParams)
             filePath := some fp
             suggestion := some "可运行 \x27mpdt check --fix\x27 尝试自动修复" }]
        else []
  let returnIssues :=
    if spec.returnType != "" then
      match m.returns with
      | some retNode =>
          let actualReturn := extractReturnAnnotation retNode
          if actualReturn != "" && !compareTypeAnnotations actualReturn spec.returnType then
            [{ level := .warning
               message := "组件 " ++ className ++ " 的方法 " ++ methodName ++
                 " 返回类型注解不匹配，预期: " ++ spec.returnType ++ "，实际: " ++ actualReturn
               filePath := some fp
               suggestion := some ("建议修改返回类型注解为: -> " ++ spec.returnType) }]
          else []
      | Option.none =>
          [{ level := .warning
             message := "组件 " ++ className ++ " 的方法 " ++ methodName ++
               " 缺少返回类型注解，建议添加: -> " ++ spec.returnType
             filePath := some fp }]
    else []
  asyncIssues ++ paramIssues ++ returnIssues

/-- `_validate_required_methods(class_node, class_name, required_methods,
component_file)`, lines 734-777. -/
def validateRequiredMethods (fp : String) (c : PyClassDef)
    (requiredMethods : List String) : List Issue :=
  let defined := definedMethods c.body
  let baseClass := getBaseClass c
  let methodSignatures := (lookupAssoc COMPONENT_METHOD_SIGNATURES baseClass).getD []
  requiredMethods.foldl
    (fun issues methodName =>
      issues ++
        match lookupAssoc defined methodName with
        | Option.none =>
            [{ level := .error
               message := "组件 " ++ c.name ++ " 缺少必需的方法: " ++ methodName
               filePath := some fp
               suggestion := some ("在类中实现方法:\n    async def " ++ methodName ++
                 "(self, ...):\n        ... | 可运行 \x27mpdt check --fix\x27 自动修复") }]
        | some m =>
            checkMethodImplementation fp c.body methodName c.name ++
              (match lookupAssoc methodSignatures methodName with
               | some spec => checkMethodSignature fp m c.name methodName spec
               | Option.none => []))
    []

/-! ## Per-component validation
(`ComponentValidator._validate_component`, lines 482-566, from the point
where the component class definition has been resolved; `fp` models
`str(component_file.relative_to(self.plugin_path))`). -/

/-- Python truthiness of a `str | None` attribute value
(`elif not class_attributes[field]`). -/
def pyFalsyStrOpt : Option String → Bool
  | Option.none => true
  | some s => s == ""

/-- One iteration of the required-field loop, lines 550-561. -/
def fieldIssues (fp className : String) (attrs : List (String × Option String))
    (field : String) : List Issue :=
  match lookupAssoc attrs field with
  | Option.none =>
      [{ level := .error
         message := "组件 " ++ className ++ " 缺少必需的类属性: " ++ field
         filePath := some fp
         suggestion := some ("在类中添加: " ++ field ++
           " = \x27...\x27 | 可运行 \x27mpdt check --fix\x27 自动修复") }]
  | some v =>
      if pyFalsyStrOpt v then
        [{ level := .warning
           message := "组件 " ++ className ++ " 的类属性 " ++ field ++ " 为空"
           filePath := some fp }]
      else []

/-- Lines 534-566 of `_validate_component`: base-class dispatch, the
required-field loop, and the required-method checks. -/
def validateComponent (fp : String) (c : PyClassDef) : List Issue :=
  let baseClass := getBaseClass c
  let requiredFields := (lookupAssoc COMPONENT_REQUIRED_FIELDS baseClass).getD []
  if requiredFields.isEmpty then
    [{ level := .error
       message := "组件 " ++ c.name ++ " 的基类 " ++ baseClass ++ " 不在已知类型列表中"
       filePath := some fp }]
  else
    let attrs := extractClassAttributes c.body
    let attrIssues :=
      requiredFields.foldl (fun acc field => acc ++ fieldIssues fp c.name attrs field) []
    let requiredMethods := (lookupAssoc COMPONENT_REQUIRED_METHODS baseClass).getD []
    let methodIssues :=
      if requiredMethods.isEmpty then [] else validateRequiredMethods fp c requiredMethods
    attrIssues ++ methodIssues

/-! ## Plugin-class `get_components` checks
(`ComponentValidator._validate_plugin_class`, lines 277-302: the loop over
the plugin class body looking for `get_components`, and the error emitted
when it is absent). -/

/-- The `get_components` portion of `_validate_plugin_class`: scan the
class body; at the first function named `get_components` check the
argument count (`len(node.args.args) != 1`) and the presence of a return
annotation, then stop; if no such function exists, emit the
missing-method error. -/
def getComponentsIssues (className : String) : List PyStmt → List Issue
  | [] =>
      [{ level := .error
         message := "插件类 " ++ className ++ " 缺少必需的方法: get_components"
         filePath := some "plugin.py"
         suggestion := some ("在类中实现方法:\n    def get_components(self) -> " ++
           "list[type]:\n        return [] | 可运行 \x27mpdt check --fix\x27 自动修复") }]
  | .funcDef n args _ _ returns _ _ :: rest =>
      if n == "get_components" then
        (if args.length != 1 then
          [{ level := .warning
             message := "插件类 " ++ className ++
               " 的 get_components 方法签名不正确，应该是: def get_components(self) -> list[type]"
             filePath := some "plugin.py" }]
         else []) ++
        (match returns with
         | Option.none =>
             [{ level := .warning
                message := "插件类 " ++ className ++
                  " 的 get_components 方法缺少返回类型注解，建议添加: -> list[type]"
                filePath := some "plugin.py" }]
         | some _ => [])
      else getComponentsIssues className rest
  | _ :: rest => getComponentsIssues className rest

/-! ## Metadata validation (`metadata_validator.py`)

`manifest.json` is read through `json.load`; the parsed value the
validator then walks is modelled by `JsonValue`.  JSON floats never occur
in the checks the claims concern and are not modelled; `json.load` keeps
the last of duplicate keys, so parsed objects have unique keys. -/

inductive JsonValue where
  | str (s : String)
  | int (n : Int)
  | bool (b : Bool)
  | null
  | arr (xs : List JsonValue)
  | obj (kvs : List (String × JsonValue))

/-- Python truthiness of a parsed JSON value
(`not manifest_data[field]`). -/
def JsonValue.truthy : JsonValue → Bool
  | .str s => s ≠ ""
  | .int n => n ≠ 0
  | .bool b => b
  | .null => false
  | .arr xs => !xs.isEmpty
  | .obj kvs => !kvs.isEmpty

mutual

/-- `str(v)` for a parsed JSON value: identity on strings, decimal for
ints, `True`/`False`/`None`, container display via `repr` of the
elements.  Nested strings use the default single-quote `repr` without the
exotic quote-switching rules (the exact escaping inside a container only
affects the display text of one Warning message). -/
def JsonValue.pyStr : JsonValue → String
  | .str s => s
  | v => JsonValue.pyRepr v

/-- `repr(v)` for a parsed JSON value. -/
def JsonValue.pyRepr : JsonValue → String
  | .str s => "\x27" ++ s ++ "\x27"
  | .int n => toString n
  | .bool true => "True"
  | .bool false => "False"
  | .null => "None"
  | .arr xs => "[" ++ String.intercalate ", " (JsonValue.pyReprList xs) ++ "]"
  | .obj kvs => "\x7b" ++ String.intercalate ", " (JsonValue.pyReprPairs kvs) ++ "\x7d"

def JsonValue.pyReprList : List JsonValue → List String
  | [] => []
  | v :: vs => JsonValue.pyRepr v :: JsonValue.pyReprList vs

def JsonValue.pyReprPairs : List (String × JsonValue) → List String
  | [] => []
  | (k, v) :: kvs =>
      ("\x27" ++ k ++ "\x27: " ++ JsonValue.pyRepr v) :: JsonValue.pyReprPairs kvs

end

/-- Consume one or more leading decimal digits; return the rest on
success. -/
def dropDigits1 : List Char → Option (List Char)
  | [] => Option.none
  | c :: cs => if c.isDigit then some (cs.dropWhile Char.isDigit) else Option.none

/-- `re.match(r"^\d+\.\d+\.\d+", s)` as a Boolean: one or more digits,
a dot, digits, a dot, digits, anchored at the start (the greedy `\d+`
never needs to backtrack before a literal dot). -/
def semverMatch (s : String) : Bool :=
  match dropDigits1 s.toList with
  | some ('.' :: r1) =>
      (match dropDigits1 r1 with
       | some ('.' :: r2) => (dropDigits1 r2).isSome
       | _ => false)
  | _ => false

/-- `REQUIRED_FIELDS` (`metadata_validator.py` line 17). -/
def REQUIRED_FIELDS : List String :=
  ["name", "version", "description", "author", "dependencies", "entry_point"]

/-- `RECOMMENDED_FIELDS` (line 20). -/
def RECOMMENDED_FIELDS : List String :=
  ["min_core_version", "include"]

/-- The Error appended at lines 66-70 for one missing required field. -/
def missingFieldError (field : String) : Issue :=
  { level := .error
    message := "manifest.json 缺少必需字段: " ++ field
    filePath := some "manifest.json"
    suggestion := some ("请在 manifest.json 中添加 \"" ++ field ++
      "\" 字段 | 可运行 \x27mpdt check --fix\x27 自动修复") }

/-- A field counts as missing when absent or bound to a falsy value
(`if field not in manifest_data or not manifest_data[field]`, lines 61
and 77). -/
def fieldMissing (m : List (String × JsonValue)) (f : String) : Bool :=
  match lookupAssoc m f with
  | Option.none => true
  | some v => !v.truthy

/-- The required-field loop, lines 58-72. -/
def requiredFieldIssues (m : List (String × JsonValue)) : List Issue :=
  let missingRequired := REQUIRED_FIELDS.filter (fieldMissing m)
  if missingRequired.isEmpty then
    [{ level := .info, message := "所有必需的元数据字段都已提供" }]
  else
    missingRequired.map missingFieldError

/-- The recommended-field loop, lines 74-86. -/
def recommendedFieldIssues (m : List (String × JsonValue)) : List Issue :=
  let missingRecommended := RECOMMENDED_FIELDS.filter (fieldMissing m)
  if missingRecommended.isEmpty then []
  else
    [{ level := .warning
       message := "建议添加以下元数据字段: " ++
         String.intercalate ", " missingRecommended
       filePath := some "manifest.json"
       suggestion := some ("在 manifest.json 中添加: " ++
         String.intercalate ", "
           (missingRecommended.map (fun f => "\"" ++ f ++ "\""))) }]

/-- The `dependencies` structure checks, lines 88-108. -/
def dependenciesIssues (m : List (String × JsonValue)) : List Issue :=
  match lookupAssoc m "dependencies" with
  | Option.none => []
  | some deps =>
      match deps with
      | .obj kvs =>
          (match lookupAssoc kvs "plugins" with
           | some v =>
               (match v with
                | .arr _ => []
                | _ => [{ level := .error
                          message := "dependencies.plugins 必须是数组"
                          filePath := some "manifest.json" }])
           | Option.none => []) ++
          (match lookupAssoc kvs "components" with
           | some v =>
               (match v with
                | .arr _ => []
                | _ => [{ level := .error
                          message := "dependencies.components 必须是数组"
                          filePath := some "manifest.json" }])
           | Option.none => [])
      | _ =>
          [{ level := .error
             message := "dependencies 字段必须是一个对象"
             filePath := some "manifest.json"
             suggestion := some ("请使用格式: \"dependencies\": " ++
               "\x7b\"plugins\": [], \"components\": []\x7d") }]

/-- One element of the `include` array, lines 121-146. -/
def includeItemIssues (i : Nat) (item : JsonValue) : List Issue :=
  match item with
  | .obj kvs =>
      (if hasKey kvs "component_type" then []
       else [{ level := .warning
               message := "include[" ++ toString i ++ "] 缺少 component_type 字段"
               filePath := some "manifest.json" }]) ++
      (if hasKey kvs "component_name" then []
       else [{ level := .warning
               message := "include[" ++ toString i ++ "] 缺少 component_name 字段"
               filePath := some "manifest.json" }]) ++
      (match lookupAssoc kvs "dependencies" with
       | some v =>
           (match v with
            | .arr _ => []
            | _ => [{ level := .warning
                      message := "include[" ++ toString i ++ "].dependencies 必须是数组"
                      filePath := some "manifest.json" }])
       | Option.none => [])
  | _ =>
      [{ level := .warning
         message := "include[" ++ toString i ++ "] 必须是对象"
         filePath := some "manifest.json" }]

/-- The `include` structure checks, lines 110-146. -/
def includeIssues (m : List (String × JsonValue)) : List Issue :=
  match lookupAssoc m "include" with
  | Option.none => []
  | some inc =>
      match inc with
      | .arr items =>
          (items.enum).foldl (fun acc p => acc ++ includeItemIssues p.1 p.2) []
      | _ =>
          [{ level := .error
             message := "include 字段必须是一个数组"
             filePath := some "manifest.json"
             suggestion := some ("请使用格式: \"include\": [\x7b\"component_type\": " ++
               "\"...\", \"component_name\": \"...\"\x7d]") }]

/-- The `entry_point` existence check, lines 148-156.  The filesystem test
`(self.plugin_path / manifest_data["entry_point"]).exists()` is an
external effect, passed in as the oracle `entryPointExists`. -/
def entryPointIssues (entryPointExists : JsonValue → Bool)
    (m : List (String × JsonValue)) : List Issue :=
  match lookupAssoc m "entry_point" with
  | Option.none => []
  | some ep =>
      if entryPointExists ep then []
      else
        [{ level := .warning
           message := "entry_point 指向的文件不存在: " ++ ep.pyStr
           filePath := some "manifest.json"
           suggestion := some ("请确保文件 " ++ ep.pyStr ++ " 存在") }]

/-- The version-format check, lines 158-167. -/
def versionIssues (m : List (String × JsonValue)) : List Issue :=
  match lookupAssoc m "version" with
  | Option.none => []
  | some v =>
      if semverMatch v.pyStr then []
      else
        [{ level := .warning
           message := "版本号格式建议使用语义化版本（如 1.0.0）: " ++ v.pyStr
           filePath := some "manifest.json" }]

/-- The outcome of locating and parsing `manifest.json` (lines 29-54):
absent file, `json.JSONDecodeError` (which always carries a line number),
another read failure, or a parsed JSON object. -/
inductive ManifestSource where
  | missing
  | decodeError (msg : String) (lineno : Nat)
  | readError (msg : String)
  | parsed (kvs : List (String × JsonValue))

/-- `MetadataValidator.validate()`, lines 22-169: the ordered issue list
the run appends. -/
def metadataValidate (entryPointExists : JsonValue → Bool)
    (src : ManifestSource) : List Issue :=
  match src with
  | .missing =>
      [{ level := .error
         message := "manifest.json 文件不存在"
         suggestion := some ("请创建 manifest.json 文件并定义插件清单 | " ++
           "可运行 \x27mpdt check --fix\x27 自动修复") }]
  | .decodeError msg lineno =>
      [{ level := .error
         message := "manifest.json 存在 JSON 语法错误: " ++ msg
         filePath := some "manifest.json"
         lineNumber := some lineno
         suggestion := some "请检查 JSON 格式是否正确" }]
  | .readError msg =>
      [{ level := .error
         message := "读取 manifest.json 失败: " ++ msg
         filePath := some "manifest.json" }]
  | .parsed m =>
      [{ level := .info, message := "找到 manifest.json 文件" }] ++
      requiredFieldIssues m ++
      recommendedFieldIssues m ++
      dependenciesIssues m ++
      includeIssues m ++
      entryPointIssues entryPointExists m ++
      versionIssues m

/-! ## Auto-fix: `AddClassAttributeTransformer`
(`auto_fix_validator.py` lines 745-795) and the write decision of
`_add_class_attribute` (lines 291-340).

The `libcst` node fragment the transformer inspects: simple statement
lines holding assignments, annotated assignments or expression
statements; string literals mark docstrings. -/

inductive CstExpr where
  | nameE (id : String)
  | simpleString (s : String)
  | concatString
  | otherE

inductive CstSmall where
  | assignS (targets : List CstExpr) (value : CstExpr)
  | annAssignS (target : CstExpr) (value : Option CstExpr)
  | exprS (value : CstExpr)
  | otherS

inductive CstStmt where
  | simpleLine (body : List CstSmall)
  | compoundStmt

/-- The already-exists scan of lines 761-768: some simple statement line
holds a plain or annotated assignment whose (first) target is the
attribute name.  (`libcst` assignments always have at least one target;
an empty target list defaults to no match.) -/
def attrAlreadyExists (attrName : String) (body : List CstStmt) : Bool :=
  body.any
    (fun stmt =>
      match stmt with
      | .simpleLine small =>
          small.any
            (fun s =>
              match s with
              | .assignS targets _ =>
                  (match targets.headD .otherE with
                   | .nameE id => id == attrName
                   | _ => false)
              | .annAssignS target _ =>
                  (match target with
                   | .nameE id => id == attrName
                   | _ => false)
              | _ => false)
      | _ => false)

/-- The docstring skip of lines 784-790: insert after a leading string
literal expression line.  (`libcst` never produces an empty
`SimpleStatementLine`.) -/
def docstringInsertPos (body : List CstStmt) : Nat :=
  match body with
  | .simpleLine (first :: _) :: _ =>
      (match first with
       | .exprS (.simpleString _) => 1
       | .exprS .concatString => 1
       | _ => 0)
  | _ => 0

/-- The transformed class body together with the transformer's `modified`
flag. -/
structure CstTransformResult where
  body : List CstStmt
  modified : Bool

/-- The new `attr = value` statement line built at lines 771-778. -/
def newAttrLine (attrName : String) (attrValue : CstExpr) : CstStmt :=
  .simpleLine [.assignS [.nameE attrName] attrValue]

/-- `AddClassAttributeTransformer.leave_ClassDef` on the matching class:
return unchanged (and leave `modified` false) when the attribute already
exists, else insert the new assignment after any leading docstring and
set `modified`. -/
def addClassAttribute (attrName : String) (attrValue : CstExpr)
    (body : List CstStmt) : CstTransformResult :=
  if attrAlreadyExists attrName body then ⟨body, false⟩
  else
    let insertPos := docstringInsertPos body
    ⟨body.take insertPos ++ [newAttrLine attrName attrValue] ++ body.drop insertPos,
     true⟩

/-- The write decision of `_add_class_attribute` (line 333): the file is
rewritten iff the transformer reports `modified`. -/
def addClassAttributeWrites (attrName : String) (attrValue : CstExpr)
    (body : List CstStmt) : Bool :=
  (addClassAttribute attrName attrValue body).modified

/-- `call.args and isinstance(call.args[0], ast.Name)` projection on an
append call's argument list (lines 394-398). -/
def firstNameArg : List PyExpr → Option String
  | .name c :: _ => some c
  | _ => Option.none

/-!
# Theorems

The claims of the specification, settled against the embedding above.
-/

/-- C1: the concrete Union-branch evaluation.  The annotations `str|int`
and `bool|float` reach the Union branch (they strip-compare unequal,
contain no `Optional`, and have different outermost bases), their
identifier-token sets differ, yet the comparator reports a match: line
1022 computes `expected_types` from `actual`, so the branch compares the
token set of `actual` with itself. -/
theorem c1_union_branch_ignores_expected :
    compareTypeAnnotations "str|int" "bool|float" = true ∧
    strSetEq (wordTokens "str|int") (wordTokens "bool|float") = false ∧
    stripSpaces "str|int" ≠ stripSpaces "bool|float" ∧
    strContains "str|int" "Optional" = false ∧
    strContains "bool|float" "Optional" = false ∧
    (pySplit (stripSpaces "str|int") "[").headD "" ≠
      (pySplit (stripSpaces "bool|float") "[").headD "" := by
  refine ⟨rfl, rfl, ?_, rfl, rfl, ?_⟩ <;> decide

/-- C3: a component whose first base-class name is not a key of
`COMPONENT_REQUIRED_FIELDS` yields exactly one Error naming the class and
the unknown base, and no attribute or method checks run. -/
theorem c3_unknown_base_single_error (fp : String) (c : PyClassDef)
    (h : lookupAssoc COMPONENT_REQUIRED_FIELDS (getBaseClass c) = Option.none) :
    validateComponent fp c =
      [{ level := .error
         message := "组件 " ++ c.name ++ " 的基类 " ++ getBaseClass c ++
           " 不在已知类型列表中"
         filePath := some fp }] := by
  simp only [validateComponent, h]
  rfl

/-- Witness for C3 at a concrete class with base `WeirdBase`. -/
theorem c3_witness :
    validateComponent "x.py" ⟨"MyThing", [.name "WeirdBase"], []⟩ =
      [{ level := .error
         message := "组件 " ++ "MyThing" ++ " 的基类 " ++
           getBaseClass ⟨"MyThing", [.name "WeirdBase"], []⟩ ++ " 不在已知类型列表中"
         filePath := some "x.py" }] :=
  c3_unknown_base_single_error "x.py" ⟨"MyThing", [.name "WeirdBase"], []⟩ (by decide)

/-- C5: the required-attribute checks.  A missing required attribute is
one Error carrying a fix suggestion; a present-but-falsy one is one
Warning; a present non-empty string value produces no issue; and the
concrete Action class defining `action_name = "foo"` but no
`action_description` gets exactly the one Error about
`action_description`. -/
theorem c5_required_attribute_checks :
    (∀ fp className attrs field,
       lookupAssoc attrs field = Option.none →
       fieldIssues fp className attrs field =
         [{ level := .error
            message := "组件 " ++ className ++ " 缺少必需的类属性: " ++ field
            filePath := some fp
            suggestion := some ("在类中添加: " ++ field ++
              " = \x27...\x27 | 可运行 \x27mpdt check --fix\x27 自动修复") }]) ∧
    (∀ fp className attrs field v,
       lookupAssoc attrs field = some v → pyFalsyStrOpt v = true →
       fieldIssues fp className attrs field =
         [{ level := .warning
            message := "组件 " ++ className ++ " 的类属性 " ++ field ++ " 为空"
            filePath := some fp }]) ∧
    (∀ fp className attrs field s,
       lookupAssoc attrs field = some (some s) → s ≠ "" →
       fieldIssues fp className attrs field = []) ∧
    validateComponent "actions/my_action.py"
        ⟨"MyAction", [.name "Action"],
         [.assign [.name "action_name"] (.const (.str "foo"))]⟩ =
      [{ level := .error
         message := "组件 MyAction 缺少必需的类属性: action_description"
         filePath := some "actions/my_action.py"
         suggestion := some ("在类中添加: action_description = \x27...\x27 | " ++
           "可运行 \x27mpdt check --fix\x27 自动修复") }] := by
  refine ⟨?_, ?_, ?_, ?_⟩
  · intro fp className attrs field h
    unfold fieldIssues
    rw [h]
  · intro fp className attrs field v h hv
    unfold fieldIssues
    rw [h]
    simp [hv]
  · intro fp className attrs field s h hs
    unfold fieldIssues
    rw [h]
    simp [pyFalsyStrOpt, hs]
  · rfl

/-- Witness for C5: the three attribute cases at concrete inputs. -/
theorem c5_witness :
    fieldIssues "f.py" "C" [] "action_name" =
      [{ level := .error
         message := "组件 " ++ "C" ++ " 缺少必需的类属性: " ++ "action_name"
         filePath := some "f.py"
         suggestion := some ("在类中添加: " ++ "action_name" ++
           " = \x27...\x27 | 可运行 \x27mpdt check --fix\x27 自动修复") }] ∧
    fieldIssues "f.py" "C" [("action_name", Option.none)] "action_name" =
      [{ level := .warning
         message := "组件 " ++ "C" ++ " 的类属性 " ++ "action_name" ++ " 为空"
         filePath := some "f.py" }] ∧
    fieldIssues "f.py" "C" [("action_name", some "foo")] "action_name" = [] :=
  ⟨c5_required_attribute_checks.1 "f.py" "C" [] "action_name" rfl,
   c5_required_attribute_checks.2.1 "f.py" "C" [("action_name", Option.none)]
     "action_name" Option.none rfl rfl,
   c5_required_attribute_checks.2.2.1 "f.py" "C" [("action_name", some "foo")]
     "action_name" "foo" rfl (by decide)⟩

/-- C2 counterexample: for a `get_components` of shape
`def get_components(self, x) -> list` — exactly one parameter besides the
receiver, which the claim declares Warning-free — the validator does emit
the signature Warning: the code warns unless `self` is the only
positional parameter (`len(node.args.args) != 1`). -/
theorem c2_counterexample :
    getComponentsIssues "MyPlugin"
        [.funcDef "get_components" ["self", "x"] false false
          (some (.name "list")) [] false] =
      [{ level := .warning
         message := "插件类 MyPlugin 的 get_components 方法签名不正确，" ++
           "应该是: def get_components(self) -> list[type]"
         filePath := some "plugin.py" }] := by
  rfl

/-- C2 (amended): when the plugin class body defines `get_components`
(the first definition found), the validator emits the signature Warning
iff the method's positional parameter list is not exactly the single
implicit receiver `self` (`len(node.args.args) != 1`), plus the
return-annotation Warning exactly when the annotation is absent. -/
theorem c2_signature_warning_iff_lone_self (className : String)
    (body : List PyStmt) (m : PyMethodNode)
    (h : findMethodNode body "get_components" = some m) :
    getComponentsIssues className body =
      (if m.argNames.length != 1 then
        [{ level := .warning
           message := "插件类 " ++ className ++
             " 的 get_components 方法签名不正确，应该是: def get_components(self) -> list[type]"
           filePath := some "plugin.py" }]
       else []) ++
      (match m.returns with
       | Option.none =>
           [{ level := .warning
              message := "插件类 " ++ className ++
                " 的 get_components 方法缺少返回类型注解，建议添加: -> list[type]"
              filePath := some "plugin.py" }]
       | some _ => []) := by
  induction body with
  | nil => exact absurd h (by simp [findMethodNode])
  | cons stmt rest ih =>
    cases stmt with
    | funcDef n args va kw ret b ia =>
      simp only [findMethodNode] at h
      simp only [getComponentsIssues]
      by_cases hn : (n == "get_components") = true
      · rw [if_pos hn] at h
        rw [if_pos hn]
        cases h
        rfl
      · rw [if_neg hn] at h
        rw [if_neg hn]
        exact ih h
    | assign targets value =>
      simp only [findMethodNode] at h
      simp only [getComponentsIssues]
      exact ih h
    | annAssign target value =>
      simp only [findMethodNode] at h
      simp only [getComponentsIssues]
      exact ih h
    | exprStmt value =>
      simp only [findMethodNode] at h
      simp only [getComponentsIssues]
      exact ih h
    | ret value =>
      simp only [findMethodNode] at h
      simp only [getComponentsIssues]
      exact ih h
    | passStmt =>
      simp only [findMethodNode] at h
      simp only [getComponentsIssues]
      exact ih h
    | raiseStmt exc =>
      simp only [findMethodNode] at h
      simp only [getComponentsIssues]
      exact ih h
    | other =>
      simp only [findMethodNode] at h
      simp only [getComponentsIssues]
      exact ih h

/-- Witness for the amended C2: the canonical `def get_components(self)
-> list` gets no issue at all. -/
theorem c2_witness :
    getComponentsIssues "P"
        [.funcDef "get_components" ["self"] false false
          (some (.name "list")) [] false] = [] := by
  have h := c2_signature_warning_iff_lone_self "P"
    [.funcDef "get_components" ["self"] false false (some (.name "list")) [] false]
    ⟨⟨"get_components", ["self"], false, false, some (.name "list"), []⟩, false⟩ rfl
  simpa using h

/-- C6: the add-missing-class-attribute fix is idempotent.  If the class
already declares the attribute (plain or annotated assignment), the
transformer returns the body unchanged with `modified = false`, so no
file write occurs; and applying the fix to the result of a previous
application never reports `modified`, so a second Auto-Fix pass performs
no further edit. -/
theorem c6_add_attribute_idempotent :
    (∀ (attrName : String) (v : CstExpr) (body : List CstStmt),
       attrAlreadyExists attrName body = true →
       addClassAttribute attrName v body = ⟨body, false⟩ ∧
       addClassAttributeWrites attrName v body = false) ∧
    (∀ (attrName : String) (v : CstExpr) (body : List CstStmt),
       addClassAttributeWrites attrName v
         (addClassAttribute attrName v body).body = false) := by
  constructor
  · intro attrName v body h
    constructor
    · simp [addClassAttribute, h]
    · simp [addClassAttributeWrites, addClassAttribute, h]
  · intro attrName v body
    by_cases h : attrAlreadyExists attrName body = true
    · simp [addClassAttributeWrites, addClassAttribute, h]
    · have hins : attrAlreadyExists attrName
          (body.take (docstringInsertPos body) ++ newAttrLine attrName v ::
            body.drop (docstringInsertPos body)) = true := by
        simp [attrAlreadyExists, newAttrLine, List.any_append, List.any_cons]
      simp [addClassAttributeWrites, addClassAttribute, h, hins]

/-- Witness for C6 at a concrete class body already declaring the
attribute. -/
theorem c6_witness :
    addClassAttribute "action_name" .otherE
        [.simpleLine [.assignS [.nameE "action_name"] .otherE]] =
      ⟨[.simpleLine [.assignS [.nameE "action_name"] .otherE]], false⟩ ∧
    addClassAttributeWrites "action_name" .otherE
      (addClassAttribute "action_name" .otherE
        [.simpleLine [.exprS (.simpleString "doc")]]).body = false :=
  ⟨(c6_add_attribute_idempotent.1 "action_name" .otherE
      [.simpleLine [.assignS [.nameE "action_name"] .otherE]] rfl).1,
   c6_add_attribute_idempotent.2 "action_name" .otherE
     [.simpleLine [.exprS (.simpleString "doc")]]⟩

/-- C7: a manifest that exists but fails JSON decoding yields exactly one
Error carrying the file path and the decoder's line number, and no other
check runs. -/
theorem c7_manifest_decode_error (g : JsonValue → Bool) (msg : String)
    (lineno : Nat) :
    metadataValidate g (.decodeError msg lineno) =
      [{ level := .error
         message := "manifest.json 存在 JSON 语法错误: " ++ msg
         filePath := some "manifest.json"
         lineNumber := some lineno
         suggestion := some "请检查 JSON 格式是否正确" }] :=
  rfl

/-- A manifest with one key removed entirely; used to compare the
present-but-falsy case with the absent case. -/
def eraseKey {α : Type} (m : List (String × α)) (k : String) :
    List (String × α) :=
  m.filter (fun p => p.1 != k)

theorem lookupAssoc_cons {α : Type} (a : String) (w : α)
    (rest : List (String × α)) (g : String) :
    lookupAssoc ((a, w) :: rest) g =
      if a = g then some w else lookupAssoc rest g := by
  by_cases hg : a = g
  · rw [if_pos hg]
    unfold lookupAssoc
    rw [List.find?_cons_of_pos _ (by simp [hg])]
    rfl
  · rw [if_neg hg]
    unfold lookupAssoc
    rw [List.find?_cons_of_neg _ (by simp [hg])]

theorem eraseKey_cons {α : Type} (a : String) (w : α)
    (rest : List (String × α)) (k : String) :
    eraseKey ((a, w) :: rest) k =
      if a = k then eraseKey rest k else (a, w) :: eraseKey rest k := by
  by_cases hk : a = k <;> simp [eraseKey, List.filter_cons, hk]

theorem lookupAssoc_eraseKey_ne {α : Type} (m : List (String × α))
    (k g : String) (h : g ≠ k) :
    lookupAssoc (eraseKey m k) g = lookupAssoc m g := by
  induction m with
  | nil => rfl
  | cons p rest ih =>
    obtain ⟨a, w⟩ := p
    rw [eraseKey_cons]
    by_cases hk : a = k
    · have hag : ¬a = g := fun hag => h (by rw [← hag, hk])
      rw [if_pos hk, lookupAssoc_cons, if_neg hag, ih]
    · rw [if_neg hk, lookupAssoc_cons, lookupAssoc_cons]
      by_cases hg : a = g
      · rw [if_pos hg, if_pos hg]
      · rw [if_neg hg, if_neg hg, ih]

theorem lookupAssoc_eraseKey_self {α : Type} (m : List (String × α))
    (k : String) : lookupAssoc (eraseKey m k) k = Option.none := by
  induction m with
  | nil => rfl
  | cons p rest ih =>
    obtain ⟨a, w⟩ := p
    rw [eraseKey_cons]
    by_cases hk : a = k
    · rw [if_pos hk]
      exact ih
    · rw [if_neg hk, lookupAssoc_cons, if_neg hk]
      exact ih

/-- C9: a required manifest key bound to a falsy value is reported with
exactly the same missing-field Error as an absent key: the required-field
pass is unchanged by deleting the key, and the Error is in the
validator's output. -/
theorem c9_falsy_required_field (m : List (String × JsonValue)) (f : String)
    (v : JsonValue) (g : JsonValue → Bool)
    (hf : f ∈ REQUIRED_FIELDS) (hl : lookupAssoc m f = some v)
    (hv : v.truthy = false) :
    requiredFieldIssues m = requiredFieldIssues (eraseKey m f) ∧
    missingFieldError f ∈ metadataValidate g (.parsed m) := by
  have hmiss : fieldMissing m f = true := by
    simp [fieldMissing, hl, hv]
  have hfilter : REQUIRED_FIELDS.filter (fieldMissing m) =
      REQUIRED_FIELDS.filter (fieldMissing (eraseKey m f)) := by
    apply List.filter_congr
    intro x _
    by_cases hxf : x = f
    · subst hxf
      simp [fieldMissing, hl, hv, lookupAssoc_eraseKey_self]
    · simp [fieldMissing, lookupAssoc_eraseKey_ne m f x hxf]
  have hfm : f ∈ REQUIRED_FIELDS.filter (fieldMissing m) :=
    List.mem_filter.2 ⟨hf, hmiss⟩
  have hne : REQUIRED_FIELDS.filter (fieldMissing m) ≠ [] :=
    List.ne_nil_of_mem hfm
  have hmem : missingFieldError f ∈ requiredFieldIssues m := by
    unfold requiredFieldIssues
    rw [if_neg (fun hemp => hne (List.isEmpty_iff.1 hemp))]
    exact List.mem_map_of_mem _ hfm
  refine ⟨?_, ?_⟩
  · unfold requiredFieldIssues
    rw [hfilter]
  · simp only [metadataValidate, List.mem_append]
    tauto

/-- Witness for C9: a manifest whose `version` is the empty string. -/
theorem c9_witness :
    requiredFieldIssues [("version", JsonValue.str "")] =
      requiredFieldIssues (eraseKey [("version", JsonValue.str "")] "version") ∧
    missingFieldError "version" ∈
      metadataValidate (fun _ => true) (.parsed [("version", JsonValue.str "")]) :=
  c9_falsy_required_field [("version", JsonValue.str "")] "version"
    (JsonValue.str "") (fun _ => true) (by decide) rfl rfl

theorem gcCollectStep_append_call (v : String)
    (lv : List (String × List PyExpr)) (acc : List String)
    (as : List PyExpr) :
    gcCollectStep ⟨lv, [(v, acc)]⟩
        (.exprStmt (.call (.attr (.name v) "append") as)) =
      (match firstNameArg as with
       | some c => ⟨lv, [(v, acc ++ [c])]⟩
       | Option.none => ⟨lv, [(v, acc)]⟩) := by
  rcases as with _ | ⟨e, es⟩
  · rfl
  · cases e <;>
      simp [gcCollectStep, firstNameArg, hasKey, lookupAssoc, updateAssoc]

theorem gcCollect_appends (v : String) (lv : List (String × List PyExpr))
    (apArgs : List (List PyExpr)) :
    ∀ acc : List String,
    (apArgs.map (fun as => PyStmt.exprStmt
        (.call (.attr (.name v) "append") as))).foldl gcCollectStep
        ⟨lv, [(v, acc)]⟩ =
      ⟨lv, [(v, acc ++ apArgs.filterMap firstNameArg)]⟩ := by
  induction apArgs with
  | nil => intro acc; simp
  | cons as rest ih =>
    intro acc
    rcases h : firstNameArg as with _ | c
    · rw [List.map_cons, List.foldl_cons, gcCollectStep_append_call, h, ih acc]
      simp [List.filterMap_cons, h]
    · rw [List.map_cons, List.foldl_cons, gcCollectStep_append_call, h,
        ih (acc ++ [c])]
      simp [List.filterMap_cons, h, List.append_assoc]

theorem gcReturnScan_skip_appends (st : GcLocals) (v : String)
    (apArgs : List (List PyExpr)) (rest : List PyStmt) :
    gcReturnScan st
        ((apArgs.map (fun as => PyStmt.exprStmt
          (.call (.attr (.name v) "append") as))) ++ rest) =
      gcReturnScan st rest := by
  induction apArgs with
  | nil => rfl
  | cons as t ih => exact ih

/-- The general discovery computation for a body of shape
`v = [elts...]; v.append(arg0...); ...; return v`: the result is the
name elements of the literal list followed by the names among the first
append arguments, in order, each resolved against the import map. -/
theorem extract_assign_appends (v : String) (elts : List PyExpr)
    (apArgs : List (List PyExpr)) (imports : List (String × String)) :
    extractComponentsFromGetComponents
        (PyStmt.assign [.name v] (.listE elts) ::
          (apArgs.map (fun as => PyStmt.exprStmt
            (.call (.attr (.name v) "append") as)) ++
           [PyStmt.ret (some (.name v))]))
        imports =
      ((elts.filterMap gcNameOf) ++ apArgs.filterMap firstNameArg).map
        (fun cn => ⟨cn, (lookupAssoc imports cn).getD ""⟩) := by
  unfold extractComponentsFromGetComponents
  have h1 : gcCollectStep ⟨[], []⟩ (PyStmt.assign [.name v] (.listE elts)) =
      ⟨[(v, elts)], [(v, [])]⟩ := by
    simp [gcCollectStep, gcCollectAssign, hasKey, updateAssoc]
  rw [List.foldl_cons, h1, List.foldl_append, gcCollect_appends]
  have h2 : ([PyStmt.ret (some (.name v))]).foldl gcCollectStep
      ⟨[(v, elts)], [(v, [] ++ apArgs.filterMap firstNameArg)]⟩ =
      ⟨[(v, elts)], [(v, [] ++ apArgs.filterMap firstNameArg)]⟩ := rfl
  rw [h2]
  have h3 : gcReturnScan
      ⟨[(v, elts)], [(v, [] ++ apArgs.filterMap firstNameArg)]⟩
      (PyStmt.assign [.name v] (.listE elts) ::
        (apArgs.map (fun as => PyStmt.exprStmt
          (.call (.attr (.name v) "append") as)) ++
         [PyStmt.ret (some (.name v))])) =
      elts.filterMap gcNameOf ++ apArgs.filterMap firstNameArg := by
    rw [show gcReturnScan
        ⟨[(v, elts)], [(v, [] ++ apArgs.filterMap firstNameArg)]⟩
        (PyStmt.assign [.name v] (.listE elts) ::
          (apArgs.map (fun as => PyStmt.exprStmt
            (.call (.attr (.name v) "append") as)) ++
           [PyStmt.ret (some (.name v))])) =
        gcReturnScan ⟨[(v, elts)], [(v, [] ++ apArgs.filterMap firstNameArg)]⟩
          (apArgs.map (fun as => PyStmt.exprStmt
            (.call (.attr (.name v) "append") as)) ++
           [PyStmt.ret (some (.name v))]) from rfl]
    rw [gcReturnScan_skip_appends]
    simp [gcReturnScan, lookupAssoc]
  simp only [h3]

theorem filterMap_gcNameOf_map_name (l : List String) :
    (l.map PyExpr.name).filterMap gcNameOf = l := by
  induction l with
  | nil => rfl
  | cons c t ih => simp [List.filterMap_cons, gcNameOf, ih]

theorem filterMap_firstNameArg_map (l : List String) :
    (l.map (fun c => [PyExpr.name c])).filterMap firstNameArg = l := by
  induction l with
  | nil => rfl
  | cons c t ih => simp [List.filterMap_cons, firstNameArg, ih]

/-- C4: for a registration body that assigns a literal list of bare names,
appends bare names, and returns the variable, discovery returns exactly
the literal-list identifiers followed by the appended identifiers, in
source order; in particular Scenario C yields `[Foo, Bar]`. -/
theorem c4_append_sequence_order :
    (∀ (v : String) (elts appends : List String)
       (imports : List (String × String)),
       extractComponentsFromGetComponents
           (PyStmt.assign [.name v] (.listE (elts.map PyExpr.name)) ::
             (appends.map (fun c => PyStmt.exprStmt
               (.call (.attr (.name v) "append") [.name c])) ++
              [PyStmt.ret (some (.name v))]))
           imports =
         (elts ++ appends).map
           (fun cn => ⟨cn, (lookupAssoc imports cn).getD ""⟩)) ∧
    extractComponentsFromGetComponents
        [PyStmt.assign [.name "components"] (.listE []),
         .exprStmt (.call (.attr (.name "components") "append") [.name "Foo"]),
         .exprStmt (.call (.attr (.name "components") "append") [.name "Bar"]),
         .ret (some (.name "components"))] [] =
      [⟨"Foo", ""⟩, ⟨"Bar", ""⟩] := by
  constructor
  · intro v elts appends imports
    have h := extract_assign_appends v (elts.map PyExpr.name)
      (appends.map (fun c => [PyExpr.name c])) imports
    rw [filterMap_gcNameOf_map_name, filterMap_firstNameArg_map,
      List.map_map] at h
    simpa [Function.comp, List.map_append] using h
  · rfl

/-- C10: discovery keeps only bare-identifier elements.  Non-name list
elements and non-name (or missing) append arguments are dropped while the
name elements are kept in order; the routine returns only the component
list and emits no issue.  The closed conjunct drops a call, an attribute
access and a string literal while keeping `Foo` and `Qux`. -/
theorem c10_non_name_elements_dropped :
    (∀ (elts : List PyExpr) (imports : List (String × String)),
       extractComponentsFromGetComponents
           [PyStmt.ret (some (.listE elts))] imports =
         (elts.filterMap gcNameOf).map
           (fun cn => ⟨cn, (lookupAssoc imports cn).getD ""⟩)) ∧
    (∀ (v : String) (elts : List PyExpr) (apArgs : List (List PyExpr))
       (imports : List (String × String)),
       extractComponentsFromGetComponents
           (PyStmt.assign [.name v] (.listE elts) ::
             (apArgs.map (fun as => PyStmt.exprStmt
               (.call (.attr (.name v) "append") as)) ++
              [PyStmt.ret (some (.name v))]))
           imports =
         ((elts.filterMap gcNameOf) ++ apArgs.filterMap firstNameArg).map
           (fun cn => ⟨cn, (lookupAssoc imports cn).getD ""⟩)) ∧
    extractComponentsFromGetComponents
        [PyStmt.ret (some (.listE [.name "Foo", .call (.name "Bar") [],
          .attr (.name "mod") "Baz", .const (.str "s"), .name "Qux"]))]
        [("Foo", ".actions.foo")] =
      [⟨"Foo", ".actions.foo"⟩, ⟨"Qux", ""⟩] := by
  refine ⟨?_, ?_, rfl⟩
  · intro elts imports
    rfl
  · intro v elts apArgs imports
    exact extract_assign_appends v elts apArgs imports

theorem strSetEq_self (l : List String) : strSetEq l l = true := by
  simp [strSetEq, List.all_eq_true]

theorem compareTailBase_symm (X Y : String) :
    (if (pySplit X "[").headD "" = (pySplit Y "[").headD "" then true
     else
       if (strContains X "Union" || strContains Y "Union" ||
           strContains X "|" || strContains Y "|") = true then
         if strSetEq (wordTokens X) (wordTokens X) = true then true else false
       else false) =
    (if (pySplit Y "[").headD "" = (pySplit X "[").headD "" then true
     else
       if (strContains Y "Union" || strContains X "Union" ||
           strContains Y "|" || strContains X "|") = true then
         if strSetEq (wordTokens Y) (wordTokens Y) = true then true else false
       else false) := by
  by_cases h3 : (pySplit X "[").headD "" = (pySplit Y "[").headD ""
  · rw [if_pos h3, if_pos h3.symm]
  · have h3' : ¬(pySplit Y "[").headD "" = (pySplit X "[").headD "" :=
      fun h => h3 h.symm
    rw [if_neg h3, if_neg h3']
    have hcomm : (strContains Y "Union" || strContains X "Union" ||
        strContains Y "|" || strContains X "|") =
        (strContains X "Union" || strContains Y "Union" ||
         strContains X "|" || strContains Y "|") := by
      cases strContains X "Union" <;> cases strContains Y "Union" <;>
        cases strContains X "|" <;> cases strContains Y "|" <;> rfl
    rw [hcomm]
    by_cases h4 : (strContains X "Union" || strContains Y "Union" ||
        strContains X "|" || strContains Y "|") = true
    · rw [if_pos h4, if_pos h4, if_pos (strSetEq_self _), if_pos (strSetEq_self _)]
    · rw [if_neg h4, if_neg h4]

theorem compareTypeAnnotations_symm (a b : String) :
    compareTypeAnnotations a b = compareTypeAnnotations b a := by
  unfold compareTypeAnnotations
  by_cases h1 : stripSpaces a = stripSpaces b
  · simp [h1]
  · have h1' : ¬stripSpaces b = stripSpaces a := fun h => h1 h.symm
    simp only [beq_iff_eq, if_neg h1, if_neg h1']
    by_cases hopt : (strContains (stripSpaces a) "Optional" ||
        strContains (stripSpaces b) "Optional") = true
    · have hopt' : (strContains (stripSpaces b) "Optional" ||
          strContains (stripSpaces a) "Optional") = true := by
        rw [Bool.or_comm]; exact hopt
      simp only [hopt, hopt', if_true, Bool.true_and]
      by_cases heq : pyReplace (pyReplace (stripSpaces a) "Optional[" "") "]" "|None" =
          pyReplace (pyReplace (stripSpaces b) "Optional[" "") "]" "|None"
      · simp [heq]
      · have heq' : ¬pyReplace (pyReplace (stripSpaces b) "Optional[" "") "]" "|None" =
            pyReplace (pyReplace (stripSpaces a) "Optional[" "") "]" "|None" :=
          fun h => heq h.symm
        simp only [beq_iff_eq, if_neg heq, if_neg heq']
        exact compareTailBase_symm _ _
    · have hoptF : (strContains (stripSpaces a) "Optional" ||
          strContains (stripSpaces b) "Optional") = false :=
        Bool.eq_false_iff.mpr hopt
      have hoptF' : (strContains (stripSpaces b) "Optional" ||
          strContains (stripSpaces a) "Optional") = false := by
        rw [Bool.or_comm]; exact hoptF
      simp only [hoptF, hoptF', Bool.false_and, Bool.false_eq_true, if_false]
      exact compareTailBase_symm _ _

/-- C8: the relaxed return-type comparator is symmetric (every branch
condition and result is invariant under swapping the arguments — the
Union branch in particular returns a constant), and the three concrete
examples behave as specified. -/
theorem c8_comparator_symmetric_and_examples :
    (∀ a b : String,
       compareTypeAnnotations a b = compareTypeAnnotations b a) ∧
    compareTypeAnnotations "tuple[bool,str]" "tuple" = true ∧
    compareTypeAnnotations "Optional[str]" "str | None" = true ∧
    compareTypeAnnotations "str" "int" = false :=
  ⟨compareTypeAnnotations_symm, rfl, rfl, rfl⟩

end Mpdt
